import Mathlib

/-!
Verification of the gosqlite wrapper (files `sqlite.go` and `driver.go`)
against its natural-language specification.

The Go code is shallowly embedded: the SQLite engine itself is abstracted
as an oracle (`Engine`) deciding the outcome of each native call as a
function of the interaction history, while the wrapper's own control flow
(transaction nesting, commit/rollback policy, the database/sql driver
adapter, cancellation plumbing) is translated statement by statement from
the source.  Machine integers that can overflow (`nTransaction : uint8`)
are modelled as `Nat` with explicit reduction modulo `2^8`.
-/

namespace GoSqlite

/-- Go `error` values relevant to this package.  The Go type system
distinguishes the dynamic types `ConnError` (value, which is what
`Conn.error` / `Conn.specificError` return) and `*ConnError` (pointer);
both implement `error`, and a type assertion `err.(*ConnError)` succeeds
only for the pointer form, so the embedding keeps them as distinct
constructors.  `plain` covers `errors.New` / `fmt.Errorf` values,
`badConn` is `driver.ErrBadConn`, and `eof` is `io.EOF`. -/
inductive GoErr where
  | connErrVal (code : Int) (msg : String)
  | connErrPtr (code : Int) (msg : String)
  | plain (msg : String)
  | badConn
  | eof
deriving DecidableEq, Repr

/-- The Go type assertion `err.(*ConnError)` used in `Conn.Transaction`:
true only for the pointer dynamic type. -/
def GoErr.isPtrConnError : GoErr → Bool
  | .connErrPtr _ _ => true
  | _ => false

/-- Payload handed to the progress callback (`interface{}` in Go):
either a `context.Context` whose `Done` channel is closed (`done = true`)
or still open (`done = false`), or any non-context value. -/
inductive Payload where
  | ctx (done : Bool)
  | nonCtx
deriving DecidableEq, Repr

/-- Oracle abstracting the native SQLite engine.  Every answer may depend
on the full interaction trace so far, so no generality is lost.
`execRes` returns `none` for `SQLITE_OK` and `some (code, errmsg)` for a
failing `sqlite3_exec`; `autocommit` is `sqlite3_get_autocommit`;
`closeRes` is the result code of `sqlite3_close`; `dangling` enumerates
the still-open native statement handles found via `sqlite3_next_stmt`
in the busy-close path; `prepRes` is the outcome of preparing a query. -/
structure Engine where
  execRes : List String → String → Option (Int × String)
  autocommit : List String → Bool
  closeRes : List String → Int
  errmsg : List String → String
  dangling : List String → List String
  prepRes : List String → String → Option (Int × String)
  lastRowid : List String → Int
  changes : List String → Int

/-- State of a (non-nil) `Conn`: whether the native handle is still set
(`db != nil`), the `uint8` transaction-depth counter, the statement
cache contents (SQL texts of cached statements), the progress-hook
registration (period and payload; `none` when no hook is installed), and
the trace of native calls issued so far. -/
structure Conn where
  dbOpen : Bool
  nTransaction : Nat
  cache : List String
  progress : Option (Nat × Payload)
  trace : List String
deriving DecidableEq, Repr

/-- Trace entry for a `sqlite3_exec` of the given SQL text. -/
def execEv (sql : String) : String := "exec:" ++ sql

/-- SQLite `%Q` formatting (as used through `Mprintf`): the string is
wrapped in single quotes and every embedded single quote is doubled. -/
def mprintfQ (name : String) : String :=
  "\x27" ++
    String.join (name.data.map
      (fun ch => if ch = Char.ofNat 39 then "\x27\x27" else String.singleton ch)) ++
  "\x27"

/-- Conn.IsClosed: the connection is closed when the handle is nil
(the nil-receiver case is outside this model, which only covers non-nil
connections). -/
def Conn.IsClosed (c : Conn) : Bool := !c.dbOpen

/-- Conn.FastExec: one `sqlite3_exec` call; a non-OK status is converted
by `Conn.error` into a value-typed `ConnError` carrying the engine's
code and current error message. -/
def Conn.FastExec (E : Engine) (c : Conn) (sql : String) : Conn × Option GoErr :=
  ({ c with trace := c.trace ++ [execEv sql] },
   (E.execRes c.trace sql).map (fun cm => GoErr.connErrVal cm.1 cm.2))

/-- Conn.GetAutocommit: `sqlite3_get_autocommit`. -/
def Conn.GetAutocommit (E : Engine) (c : Conn) : Bool :=
  E.autocommit c.trace

/-- Conn.BeginTransaction: `BEGIN` / `BEGIN IMMEDIATE` / `BEGIN EXCLUSIVE`
for the three supported transaction types (Deferred = 0, Immediate = 1,
Exclusive = 2); every other value panics, modelled as `none`. -/
def Conn.BeginTransaction (E : Engine) (c : Conn) (t : Nat) :
    Option (Conn × Option GoErr) :=
  if t = 0 then some (Conn.FastExec E c "BEGIN")
  else if t = 1 then some (Conn.FastExec E c "BEGIN IMMEDIATE")
  else if t = 2 then some (Conn.FastExec E c "BEGIN EXCLUSIVE")
  else none

/-- Conn.Begin: a deferred-mode transaction, i.e. the `Deferred` branch of
`BeginTransaction` (which never panics). -/
def Conn.Begin (E : Engine) (c : Conn) : Conn × Option GoErr :=
  Conn.FastExec E c "BEGIN"

/-- Conn.Rollback: `ROLLBACK`. -/
def Conn.Rollback (E : Engine) (c : Conn) : Conn × Option GoErr :=
  Conn.FastExec E c "ROLLBACK"

/-- Conn.Commit: `COMMIT`; when that fails and the engine is not already
back in autocommit mode, a best-effort `ROLLBACK` is issued whose own
error is discarded, and the original commit error is returned. -/
def Conn.Commit (E : Engine) (c : Conn) : Conn × Option GoErr :=
  let r := Conn.FastExec E c "COMMIT"
  match r.2 with
  | some e =>
      if Conn.GetAutocommit E r.1 then (r.1, some e)
      else ((Conn.Rollback E r.1).1, some e)
  | none => (r.1, none)

/-- SQL text issued by `Conn.Savepoint` for depth `d`. -/
def savepointSql (d : Nat) : String := "SAVEPOINT " ++ mprintfQ (toString d)

/-- SQL text issued by `Conn.ReleaseSavepoint` for depth `d`. -/
def releaseSql (d : Nat) : String := "RELEASE " ++ mprintfQ (toString d)

/-- SQL text issued by `Conn.RollbackSavepoint` for depth `d`. -/
def rollbackToSql (d : Nat) : String := "ROLLBACK TO SAVEPOINT " ++ mprintfQ (toString d)

/-- Conn.Savepoint: `SAVEPOINT name` with `%Q` quoting. -/
def Conn.Savepoint (E : Engine) (c : Conn) (name : String) : Conn × Option GoErr :=
  Conn.FastExec E c ("SAVEPOINT " ++ mprintfQ name)

/-- Conn.ReleaseSavepoint: `RELEASE name` with `%Q` quoting. -/
def Conn.ReleaseSavepoint (E : Engine) (c : Conn) (name : String) : Conn × Option GoErr :=
  Conn.FastExec E c ("RELEASE " ++ mprintfQ name)

/-- Conn.RollbackSavepoint: `ROLLBACK TO SAVEPOINT name` with `%Q` quoting. -/
def Conn.RollbackSavepoint (E : Engine) (c : Conn) (name : String) : Conn × Option GoErr :=
  Conn.FastExec E c ("ROLLBACK TO SAVEPOINT " ++ mprintfQ name)

/-- Conn.Transaction, deferred cleanup block (the `defer func(){...}()`
closure): decrements the `uint8` depth counter first.  On a body error
it does a full `ROLLBACK` when the depth has returned to 0 or the
error's dynamic type is `*ConnError` (the Go assertion `err.(*ConnError)`
matches the pointer form only); otherwise it rolls back to the innermost
savepoint and, only when that succeeded, releases it, logging (not
propagating) any failure of those statements.  On body success it
commits (depth 0) or releases the savepoint, issuing `ROLLBACK` after a
failed commit/release. -/
def txCleanup (E : Engine) (c : Conn) (ferr : Option GoErr) : Conn :=
  let c3 := { c with nTransaction := (c.nTransaction + 255) % 256 }
  match ferr with
  | some e =>
    if c3.nTransaction = 0 ∨ e.isPtrConnError then (Conn.Rollback E c3).1
    else
      let rr := Conn.RollbackSavepoint E c3 (toString c3.nTransaction)
      match rr.2 with
      | some _ => rr.1
      | none => (Conn.ReleaseSavepoint E rr.1 (toString c3.nTransaction)).1
  | none =>
    let cr :=
      if c3.nTransaction = 0 then Conn.Commit E c3
      else Conn.ReleaseSavepoint E c3 (toString c3.nTransaction)
    match cr.2 with
    | some _ => (Conn.Rollback E cr.1).1
    | none => cr.1

/-- Conn.Transaction (continued): the main body.  BEGIN at depth 0 (the
panic of `BeginTransaction` on an invalid type propagates as `none`),
`SAVEPOINT` named after the current depth otherwise; a failing
BEGIN/SAVEPOINT is returned without touching the counter.  Otherwise the
counter is incremented, the body runs, and the deferred `txCleanup`
block runs; the value returned is the one captured at the `return err`
statement, i.e. the body's error — assignments to `err` inside the
deferred block do not reach the caller because `err` is not a named
result. -/
def Conn.Transaction (E : Engine) (t : Nat) (f : Conn → Conn × Option GoErr)
    (c : Conn) : Option (Conn × Option GoErr) :=
  match (if c.nTransaction = 0 then Conn.BeginTransaction E c t
         else some (Conn.Savepoint E c (toString c.nTransaction))) with
  | none => none
  | some (c0, some e) => some (c0, some e)
  | some (c0, none) =>
    match f { c0 with nTransaction := (c0.nTransaction + 1) % 256 } with
    | (c2, ferr) => some (txCleanup E c2 ferr, ferr)

/-- Conn.Insert: data flow of the rowid computation.  The outcome of the
underlying `ExecDml` is passed in as `(changes, dmlErr)` and the value
`sqlite3_last_insert_rowid` would return as `lastRowid`; the returned
boolean records whether `LastInsertRowid` was actually consulted. -/
def Conn.Insert (changes : Int) (dmlErr : Option GoErr) (lastRowid : Int) :
    Int × Option GoErr × Bool :=
  match dmlErr with
  | some e => (-1, some e, false)
  | none => if changes = 0 then (-1, none, false) else (lastRowid, none, true)

/-- Modelled from the spec: the statement cache (file outside `src/`):
"On connection close, flush finalizes every cached statement"; flushing
empties the cache and finalizes each cached native handle. -/
def cacheFlush (c : Conn) : Conn :=
  { c with
    cache := [],
    trace := c.trace ++ c.cache.map (fun q => "finalize:" ++ q) }

/-- Conn.Close, final step: a non-OK status from the (re)tried
`sqlite3_close` is surfaced as an error with the handle kept; on OK the
handle reference is cleared. -/
def closeFinish (c : Conn) (rv : Int) (msg : String) : Conn × Option GoErr :=
  if rv ≠ 0 then (c, some (GoErr.connErrVal rv msg))
  else ({ c with dbOpen := false }, none)

/-- Conn.Close: `nil` immediately when the handle is already nil;
otherwise flush the statement cache, attempt `sqlite3_close`, and on a
`SQLITE_BUSY` (low byte 5) answer force-finalize every dangling native
statement and retry the close exactly once; `closeFinish` then surfaces
the final status. -/
def Conn.Close (E : Engine) (c : Conn) : Conn × Option GoErr :=
  if c.dbOpen = false then (c, none)
  else
    let c1 := cacheFlush c
    let c2 := { c1 with trace := c1.trace ++ ["close"] }
    let rv := E.closeRes c1.trace
    if rv % 256 = 5 then
      let fins := (E.dangling c2.trace).map (fun q => "finalize:" ++ q)
      let c3 := { c2 with trace := c2.trace ++ fins ++ ["close"] }
      closeFinish c3 (E.closeRes (c2.trace ++ fins)) (E.errmsg c3.trace)
    else closeFinish c2 rv (E.errmsg c2.trace)

/-! ## Statement and rows layer of the database/sql driver adapter -/

/-- Driver values bound to statement parameters. -/
inductive DVal where
  | intV (i : Int)
  | textV (s : String)
  | nullV
deriving DecidableEq, Repr

/-- A `driver.NamedValue`: optional parameter name, 1-based ordinal and
the value (Go uses the empty name for purely positional values; here
`none`). -/
structure NamedArg where
  name : Option String
  ordinal : Nat
  value : DVal
deriving DecidableEq, Repr

/-- State of a driver `stmt`: the parameter bindings of the underlying
prepared statement, its step position, and the two lifecycle flags
`rowsRef` (an unclosed `Rows` references it) and `pendingClose` (close
was requested while a `Rows` was open). -/
structure StmtSt where
  binds : List (Nat × DVal)
  stepPos : Nat
  rowsRef : Bool
  pendingClose : Bool
deriving DecidableEq, Repr

/-- Modelled from the spec: `Stmt.BindByIndex` (statement code outside
`src/`): "positional binding is 1-indexed" and "Binding must fully
replace any previous bound values". -/
def bindByIndex (st : StmtSt) (i : Nat) (v : DVal) : StmtSt :=
  { st with binds := st.binds.filter (fun p => p.1 ≠ i) ++ [(i, v)] }

/-- stmt.bind: positional binding of driver values at indices 1, 2, ... -/
def stmtBind (st : StmtSt) (args : List DVal) (i : Nat) : StmtSt :=
  match args with
  | [] => st
  | v :: rest => stmtBind (bindByIndex st i v) rest (i + 1)

/-- stmt.bindNamedValue: a nameless argument binds at its ordinal; a named
argument first resolves the name to a positional index (`pidx` models
`Stmt.BindParameterIndex`, statement code outside `src/`, which per the
spec fails when the name is unknown) and then binds there. -/
def bindNamedValue (st : StmtSt) (args : List NamedArg)
    (pidx : String → Option Nat) : StmtSt × Option GoErr :=
  match args with
  | [] => (st, none)
  | a :: rest =>
    match a.name with
    | none => bindNamedValue (bindByIndex st a.ordinal a.value) rest pidx
    | some nm =>
      match pidx nm with
      | none => (st, some (GoErr.plain ("unknown parameter name: " ++ nm)))
      | some i => bindNamedValue (bindByIndex st i a.value) rest pidx

/-- stmt.Query: rejected up front when a previously returned `Rows` is
still open; otherwise binds positionally, marks `rowsRef` and returns a
new `Rows` (third component: whether a `Rows` was returned). -/
def stmtQuery (st : StmtSt) (args : List DVal) : StmtSt × Option GoErr × Bool :=
  if st.rowsRef then
    (st, some (GoErr.plain "previously returned Rows still not closed"), false)
  else
    let st1 := stmtBind st args 1
    ({ st1 with rowsRef := true }, none, true)

/-- stmt.QueryContext: binds the named values, marks `rowsRef` and returns
a new `Rows` carrying the context; the source performs no `rowsRef`
check on this path. -/
def stmtQueryContext (st : StmtSt) (args : List NamedArg)
    (pidx : String → Option Nat) : StmtSt × Option GoErr × Bool :=
  match bindNamedValue st args pidx with
  | (st1, some e) => (st1, some e, false)
  | (st1, none) => ({ st1 with rowsRef := true }, none, true)

/-- progressHandler: the callback installed for context cancellation.
It requests an abort exactly when its payload is a context whose `Done`
channel is closed at the moment the engine polls it; any other payload
never aborts. -/
def progressHandler : Payload → Bool
  | .ctx done => done
  | .nonCtx => false

/-- stmt.ExecContext: binds the named values, installs `progressHandler`
with period 100 and the context as payload, steps the statement to
completion (`Stmt.exec` is statement code outside `src/`; its outcome is
the oracle argument `stepRes`), and — via `defer` — uninstalls the
progress hook on every exit path after the step, then snapshots the
result.  The returned connection state reflects the hook registration
after the call. -/
def stmtExecContext (E : Engine) (c : Conn) (st : StmtSt) (args : List NamedArg)
    (pidx : String → Option Nat) (ctx : Payload) (stepRes : Option GoErr) :
    Conn × StmtSt × Option GoErr × Option (Int × Int) :=
  match bindNamedValue st args pidx with
  | (st1, some e) => (c, st1, some e, none)
  | (st1, none) =>
    let c1 := { c with progress := some (100, ctx) }
    let c2 := { c1 with trace := c1.trace ++ ["step"] }
    let c3 := { c2 with progress := none }
    match stepRes with
    | some e => (c3, st1, some e, none)
    | none => (c3, st1, none, some (E.lastRowid c3.trace, E.changes c3.trace))

/-- rowsImpl.Next: when the `Rows` carries a context, installs
`progressHandler` before stepping and — via `defer` — uninstalls it on
every exit path; one step of `Stmt.Next` (statement code outside `src/`,
outcome given by the oracle arguments `nextOk`/`nextErr`) then yields a
row, `io.EOF` at the end of the sequence, or the step error. -/
def rowsNext (c : Conn) (ctx : Option Payload) (nextOk : Bool)
    (nextErr : Option GoErr) : Conn × Option GoErr :=
  let c1 := match ctx with
    | some p => { c with progress := some (100, p) }
    | none => c
  let c2 := { c1 with trace := c1.trace ++ ["step"] }
  let c3 := match ctx with
    | some _ => { c2 with progress := none }
    | none => c2
  match nextErr with
  | some e => (c3, some e)
  | none => if nextOk then (c3, none) else (c3, some GoErr.eof)

/-! ## Connection layer of the database/sql driver adapter -/

/-- Modelled from the spec: `Conn.Prepare` (statement code outside
`src/`): "prepare (returns Statement, consulting cache first)"; the
prepare outcome is decided by the engine oracle and a fresh statement
state is returned on success. -/
def Conn.PrepareStmt (E : Engine) (c : Conn) (query : String) :
    Conn × Option GoErr × Option StmtSt :=
  let c1 := { c with trace := c.trace ++ ["prepare:" ++ query] }
  match E.prepRes c.trace query with
  | some cm => (c1, some (GoErr.connErrVal cm.1 cm.2), none)
  | none =>
    (c1, none, some { binds := [], stepPos := 0, rowsRef := false, pendingClose := false })

/-- conn.Exec: fails fast with `driver.ErrBadConn` on a closed
connection.  With no arguments, the reserved `"unwrap"` query
short-circuits with a zero-code `ConnError` carrying the handle, and any
other query goes through `FastExec`; the parameterized path runs the
prepare/bind/exec loop of `Conn.Exec` (whose statement internals live
outside `src/`), abstracted here as a single engine interaction on the
query text.  On success the `(LastInsertRowid, Changes)` snapshot is
returned. -/
def dExec (E : Engine) (c : Conn) (query : String) (args : List DVal) :
    Conn × Option GoErr × Option (Int × Int) :=
  if c.IsClosed then (c, some GoErr.badConn, none)
  else if args.isEmpty then
    if query = "unwrap" then (c, some (GoErr.connErrVal 0 ""), none)
    else
      match Conn.FastExec E c query with
      | (c1, some e) => (c1, some e, none)
      | (c1, none) => (c1, none, some (E.lastRowid c1.trace, E.changes c1.trace))
  else
    match Conn.FastExec E c query with
    | (c1, some e) => (c1, some e, none)
    | (c1, none) => (c1, none, some (E.lastRowid c1.trace, E.changes c1.trace))

/-- conn.Ping: fails fast with `driver.ErrBadConn` on a closed
connection; otherwise executes the no-op introspection query
`PRAGMA schema_verion` (sic) through `conn.Exec`. -/
def dPing (E : Engine) (c : Conn) : Conn × Option GoErr :=
  if c.IsClosed then (c, some GoErr.badConn)
  else
    let r := dExec E c "PRAGMA schema_verion" []
    (r.1, r.2.1)

/-- conn.Prepare: fails fast with `driver.ErrBadConn` on a closed
connection, otherwise prepares through the connection. -/
def dPrepare (E : Engine) (c : Conn) (query : String) :
    Conn × Option GoErr × Option StmtSt :=
  if c.IsClosed then (c, some GoErr.badConn, none)
  else Conn.PrepareStmt E c query

/-- conn.QueryContext: fails fast with `driver.ErrBadConn` on a closed
connection; otherwise prepares the query and opens a `Rows` on a fresh
driver statement via `stmt.QueryContext` (third component: whether a
`Rows` was returned). -/
def dQueryContext (E : Engine) (c : Conn) (query : String)
    (args : List NamedArg) (pidx : String → Option Nat) :
    Conn × Option GoErr × Bool :=
  if c.IsClosed then (c, some GoErr.badConn, false)
  else
    match Conn.PrepareStmt E c query with
    | (c1, some e, _) => (c1, some e, false)
    | (c1, none, some st) =>
      let r := stmtQueryContext st args pidx
      (c1, r.2.1, r.2.2)
    | (c1, none, none) => (c1, none, false)

/-- conn.ExecContext: fails fast with `driver.ErrBadConn` on a closed
connection; otherwise prepares the query and executes it on a fresh
driver statement via `stmt.ExecContext`. -/
def dExecContext (E : Engine) (c : Conn) (query : String)
    (args : List NamedArg) (pidx : String → Option Nat) (ctx : Payload)
    (stepRes : Option GoErr) : Conn × Option GoErr × Option (Int × Int) :=
  if c.IsClosed then (c, some GoErr.badConn, none)
  else
    match Conn.PrepareStmt E c query with
    | (c1, some e, _) => (c1, some e, none)
    | (c1, none, some st) =>
      match stmtExecContext E c1 st args pidx ctx stepRes with
      | (c2, _, e, res) => (c2, e, res)
    | (c1, none, none) => (c1, none, none)

/-- conn.Begin: fails fast with `driver.ErrBadConn` on a closed
connection, otherwise starts a deferred transaction. -/
def dBegin (E : Engine) (c : Conn) : Conn × Option GoErr :=
  if c.IsClosed then (c, some GoErr.badConn)
  else Conn.Begin E c

/-- Modelled from the spec: `Conn.SetQueryOnly` is repository code
outside `src/` (the pragma helpers).  Per section 4.1 every operation
that can fail calls into the engine and checks the returned status; this
one applies the requested read-only mode by setting the `query_only`
pragma on the connection. -/
def queryOnlySql (mode : Bool) : String :=
  "PRAGMA query_only=" ++ (if mode then "1" else "0")

/-- Modelled from the spec: see `queryOnlySql`; the pragma write is one
engine call whose status is checked. -/
def Conn.SetQueryOnly (E : Engine) (c : Conn) (mode : Bool) : Conn × Option GoErr :=
  Conn.FastExec E c (queryOnlySql mode)

/-- conn.BeginTx: fails fast with `driver.ErrBadConn` on a closed
connection; rejects nesting when the engine is not in autocommit mode;
applies the read-only option through `SetQueryOnly`; then maps isolation
levels default (0) and serializable (6) to `PRAGMA read_uncommitted=0`
and read-uncommitted (1) to `PRAGMA read_uncommitted=1`, rejecting every
other level with an error naming it; finally starts the transaction via
`conn.Begin`. -/
def dBeginTx (E : Engine) (c : Conn) (isolation : Int) (readOnly : Bool) :
    Conn × Option GoErr :=
  if c.IsClosed then (c, some GoErr.badConn)
  else if Conn.GetAutocommit E c = false then
    (c, some (GoErr.plain "Nested transcations are not supported"))
  else
    match Conn.SetQueryOnly E c readOnly with
    | (c1, some e) => (c1, some e)
    | (c1, none) =>
      if isolation = 0 ∨ isolation = 6 then
        match Conn.FastExec E c1 "PRAGMA read_uncommitted=0" with
        | (c2, some e) => (c2, some e)
        | (c2, none) => dBegin E c2
      else if isolation = 1 then
        match Conn.FastExec E c1 "PRAGMA read_uncommitted=1" with
        | (c2, some e) => (c2, some e)
        | (c2, none) => dBegin E c2
      else
        (c1, some (GoErr.plain ("Isolation level " ++ toString isolation ++
          " is not supported.")))

/-! ## Concrete instances used by the witnesses and counterexamples -/

/-- An engine on which every native call succeeds and that reports
autocommit mode. -/
def okEngine : Engine :=
  { execRes := fun _ _ => none
    autocommit := fun _ => true
    closeRes := fun _ => 0
    errmsg := fun _ => ""
    dangling := fun _ => []
    prepRes := fun _ _ => none
    lastRowid := fun _ => 7
    changes := fun _ => 1 }

/-- An engine whose `COMMIT` fails (code 1) while the connection stays
out of autocommit mode. -/
def commitFailEngine : Engine :=
  { okEngine with
    execRes := fun _ q => if q = "COMMIT" then some (1, "cannot commit") else none
    autocommit := fun _ => false }

/-- A fresh open connection. -/
def conn0 : Conn :=
  { dbOpen := true, nTransaction := 0, cache := [], progress := none, trace := [] }

/-- The state `conn0` reaches after a successful `Conn.Close` on
`okEngine`: cache flushed (it was empty), one native close issued, the
handle cleared. -/
def closedConn : Conn :=
  { dbOpen := false, nTransaction := 0, cache := [], progress := none,
    trace := ["close"] }

/-- An open connection already one transaction deep. -/
def connDepth1 : Conn := { conn0 with nTransaction := 1 }

/-- A fresh driver statement. -/
def stmt0 : StmtSt :=
  { binds := [], stepPos := 0, rowsRef := false, pendingClose := false }

/-- A driver statement with an open `Rows` still referencing it. -/
def stmtWithRows : StmtSt := { stmt0 with rowsRef := true }

/-- State of the connection as the transaction body receives it when the
pre-call depth was nonzero: the SAVEPOINT named after the depth has been
issued (successfully) and the depth counter incremented. -/
def savepointEntered (c : Conn) : Conn :=
  { c with
    nTransaction := (c.nTransaction + 1) % 256
    trace := c.trace ++ [execEv (savepointSql c.nTransaction)] }

/-- A transaction body that succeeds without touching the connection. -/
def idBody : Conn → Conn × Option GoErr := fun u => (u, none)

/-- The value-typed `ConnError` a failing SQL operation inside a
transaction body produces (`Conn.error` returns `ConnError`, not
`*ConnError`). -/
def cexErr : GoErr := GoErr.connErrVal 10 "disk I/O error"

/-- A transaction body that fails with `cexErr`. -/
def cexBody : Conn → Conn × Option GoErr := fun u => (u, some cexErr)

/-- A transaction body that fails with a pointer-typed `*ConnError`. -/
def ptrErrBody : Conn → Conn × Option GoErr :=
  fun u => (u, some (GoErr.connErrPtr 10 "disk I/O error"))

/-! ## Frame lemmas: every SQL-issuing operation leaves the depth counter,
the handle and the hook registration untouched (they only extend the trace) -/

theorem fastExec_fst_nTransaction (E : Engine) (c : Conn) (q : String) :
    (Conn.FastExec E c q).1.nTransaction = c.nTransaction := rfl

theorem rollback_fst_nTransaction (E : Engine) (c : Conn) :
    (Conn.Rollback E c).1.nTransaction = c.nTransaction := rfl

theorem savepoint_fst_nTransaction (E : Engine) (c : Conn) (n : String) :
    (Conn.Savepoint E c n).1.nTransaction = c.nTransaction := rfl

theorem releaseSavepoint_fst_nTransaction (E : Engine) (c : Conn) (n : String) :
    (Conn.ReleaseSavepoint E c n).1.nTransaction = c.nTransaction := rfl

theorem rollbackSavepoint_fst_nTransaction (E : Engine) (c : Conn) (n : String) :
    (Conn.RollbackSavepoint E c n).1.nTransaction = c.nTransaction := rfl

theorem commit_fst_nTransaction (E : Engine) (c : Conn) :
    (Conn.Commit E c).1.nTransaction = c.nTransaction := by
  unfold Conn.Commit
  dsimp only
  cases hE : (Conn.FastExec E c "COMMIT").2 with
  | none =>
    simp only [hE]
    rfl
  | some e =>
    simp only [hE]
    split
    · rfl
    · rfl

/-- The deferred cleanup block always leaves the depth counter at
exactly the decremented value, whichever rollback/release statements it
issues and however they fare. -/
theorem txCleanup_nTransaction (E : Engine) (c : Conn) (ferr : Option GoErr) :
    (txCleanup E c ferr).nTransaction = (c.nTransaction + 255) % 256 := by
  cases ferr with
  | some e =>
    unfold txCleanup
    dsimp only
    split
    · rfl
    · split
      · rfl
      · rfl
  | none =>
    unfold txCleanup
    dsimp only
    split
    · rw [rollback_fst_nTransaction]
      split
      · rw [commit_fst_nTransaction]
      · rfl
    · split
      · rw [commit_fst_nTransaction]
      · rfl

/-! ## Claim theorems -/

/-- C1: for every transaction type, every engine behavior and every body
outcome — the body failing or succeeding, the commit/release of the
cleanup succeeding or failing — `Conn.Transaction` returns with the
`nTransaction` counter equal to its pre-call value: the counter is
incremented only after BEGIN/SAVEPOINT succeeded and decremented exactly
once by the deferred `txCleanup` block (bodies are assumed to preserve
the counter themselves, which any composition of nested `Transaction`
calls does, the counter being mutated nowhere else). -/
theorem transaction_depth_restored (E : Engine) (t : Nat)
    (f : Conn → Conn × Option GoErr) (c : Conn)
    (ht : t < 3) (hn : c.nTransaction < 256)
    (hf : ∀ u, (f u).1.nTransaction = u.nTransaction) :
    ∃ r, Conn.Transaction E t f c = some r ∧
      r.1.nTransaction = c.nTransaction := by
  obtain ⟨c0, e, hstepEq, hc0⟩ : ∃ c0 e,
      (if c.nTransaction = 0 then Conn.BeginTransaction E c t
       else some (Conn.Savepoint E c (toString c.nTransaction))) = some (c0, e) ∧
      c0.nTransaction = c.nTransaction := by
    by_cases hz : c.nTransaction = 0
    · rw [if_pos hz]
      interval_cases t
      · exact ⟨_, _, rfl, rfl⟩
      · exact ⟨_, _, rfl, rfl⟩
      · exact ⟨_, _, rfl, rfl⟩
    · rw [if_neg hz]
      exact ⟨_, _, rfl, rfl⟩
  unfold Conn.Transaction
  rw [hstepEq]
  cases e with
  | some e => exact ⟨(c0, some e), rfl, hc0⟩
  | none =>
    obtain ⟨c2, ferr, hf2⟩ : ∃ c2 ferr,
        f { c0 with nTransaction := (c0.nTransaction + 1) % 256 } = (c2, ferr) :=
      ⟨_, _, rfl⟩
    dsimp only
    rw [hf2]
    refine ⟨(txCleanup E c2 ferr, ferr), rfl, ?_⟩
    have hc2 : c2.nTransaction = (c0.nTransaction + 1) % 256 := by
      have h := hf { c0 with nTransaction := (c0.nTransaction + 1) % 256 }
      rw [hf2] at h
      exact h
    show (txCleanup E c2 ferr).nTransaction = c.nTransaction
    rw [txCleanup_nTransaction, hc2, hc0]
    omega

/-- C1 witness: a concrete run restores the counter. -/
theorem transaction_depth_restored_witness :
    ∃ r, Conn.Transaction okEngine 0 idBody conn0 = some r ∧
      r.1.nTransaction = conn0.nTransaction :=
  transaction_depth_restored okEngine 0 idBody conn0 (by decide) (by decide)
    (fun _ => rfl)

/-- C2: when COMMIT fails, `Conn.Commit` returns the commit error
unchanged whatever the rollback does; it issues a ROLLBACK exactly when
the engine is not already back in autocommit mode, and no rollback when
it is. -/
theorem commit_error_and_rollback (E : Engine) (c : Conn) (code : Int)
    (msg : String) (hfail : E.execRes c.trace "COMMIT" = some (code, msg)) :
    (Conn.Commit E c).2 = some (GoErr.connErrVal code msg) ∧
    (E.autocommit (c.trace ++ [execEv "COMMIT"]) = false →
      (Conn.Commit E c).1.trace = c.trace ++ [execEv "COMMIT", execEv "ROLLBACK"]) ∧
    (E.autocommit (c.trace ++ [execEv "COMMIT"]) = true →
      (Conn.Commit E c).1.trace = c.trace ++ [execEv "COMMIT"]) := by
  have h2 : (Conn.FastExec E c "COMMIT").2 = some (GoErr.connErrVal code msg) := by
    simp [Conn.FastExec, hfail]
  unfold Conn.Commit
  dsimp only
  simp only [h2]
  refine ⟨?_, ?_, ?_⟩
  · split
    · rfl
    · rfl
  · intro hA
    have hA' : Conn.GetAutocommit E (Conn.FastExec E c "COMMIT").1 = false := hA
    rw [hA']
    simp [Conn.Rollback, Conn.FastExec]
  · intro hA
    have hA' : Conn.GetAutocommit E (Conn.FastExec E c "COMMIT").1 = true := hA
    rw [hA']
    simp [Conn.FastExec]

/-- C2 witness: a concrete failing COMMIT outside autocommit mode rolls
back and still reports the commit error. -/
theorem commit_error_and_rollback_witness :
    (Conn.Commit commitFailEngine conn0).2 =
      some (GoErr.connErrVal 1 "cannot commit") ∧
    (Conn.Commit commitFailEngine conn0).1.trace =
      conn0.trace ++ [execEv "COMMIT", execEv "ROLLBACK"] :=
  ⟨(commit_error_and_rollback commitFailEngine conn0 1 "cannot commit" rfl).1,
   (commit_error_and_rollback commitFailEngine conn0 1 "cannot commit" rfl).2.1 rfl⟩

/-- C3 counterexample: on an open connection in autocommit mode, BeginTx
with the unsupported isolation level 2 does return a rejection error
naming the level, but only after the query-only pragma applied by
`SetQueryOnly` has already been executed on the connection: the trace is
no longer the pre-call trace at the moment of rejection, refuting the
no-side-effect part of the claim. -/
theorem beginTx_pragma_before_rejection :
    dBeginTx okEngine conn0 2 false =
      ({ conn0 with trace := [execEv (queryOnlySql false)] },
       some (GoErr.plain "Isolation level 2 is not supported.")) ∧
    (dBeginTx okEngine conn0 2 false).1.trace ≠ conn0.trace := by
  refine ⟨by decide, by decide⟩

/-- C3 (amended): on an open connection in autocommit mode, once the
query-only pragma from `SetQueryOnly` has been applied successfully,
BeginTx with an isolation level outside {0 default, 1 read-uncommitted,
6 serializable} returns an error naming the unsupported level and issues
nothing further: no `read_uncommitted` pragma and no BEGIN reaches the
engine — but the query-only pragma has already been executed before the
rejection, so the call is not entirely side-effect free. -/
theorem beginTx_rejects_unsupported_isolation (E : Engine) (c : Conn)
    (lvl : Int) (ro : Bool) (hopen : c.dbOpen = true)
    (hauto : E.autocommit c.trace = true)
    (h0 : lvl ≠ 0) (h1 : lvl ≠ 1) (h6 : lvl ≠ 6)
    (hq : E.execRes c.trace (queryOnlySql ro) = none) :
    dBeginTx E c lvl ro =
      ({ c with trace := c.trace ++ [execEv (queryOnlySql ro)] },
       some (GoErr.plain ("Isolation level " ++ toString lvl ++
         " is not supported."))) := by
  have hcl : c.IsClosed = false := by simp [Conn.IsClosed, hopen]
  have hga : Conn.GetAutocommit E c = true := hauto
  have hqc : Conn.SetQueryOnly E c ro =
      ({ c with trace := c.trace ++ [execEv (queryOnlySql ro)] }, none) := by
    simp [Conn.SetQueryOnly, Conn.FastExec, hq]
  unfold dBeginTx
  rw [hcl, hga, hqc]
  simp [h0, h1, h6]

/-- C3 witness: a concrete rejected isolation level. -/
theorem beginTx_rejects_unsupported_isolation_witness :
    dBeginTx okEngine conn0 4 true =
      ({ conn0 with trace := conn0.trace ++ [execEv (queryOnlySql true)] },
       some (GoErr.plain ("Isolation level " ++ toString (4 : Int) ++
         " is not supported."))) :=
  beginTx_rejects_unsupported_isolation okEngine conn0 4 true rfl rfl
    (by decide) (by decide) (by decide) rfl

/-- C4 counterexample: `stmt.QueryContext` on a statement whose
`rowsRef` flag is set (an earlier `Rows` is still open) does not fail
with the open-Rows error: it returns a second `Rows` and no error,
because the source performs that check only in `stmt.Query`. -/
theorem queryContext_skips_rowsRef_check :
    stmtQueryContext stmtWithRows [] (fun _ => none) =
      (stmtWithRows, none, true) := rfl

/-- C4 (amended): `stmt.Query` on a statement whose `rowsRef` flag is
set fails with exactly the error "previously returned Rows still not
closed" and leaves the statement state — bindings, step position, the
lifecycle flags and hence the open `Rows` — completely unaltered;
`stmt.QueryContext` performs no such check. -/
theorem query_rejects_open_rows (st : StmtSt) (args : List DVal)
    (h : st.rowsRef = true) :
    stmtQuery st args =
      (st, some (GoErr.plain "previously returned Rows still not closed"),
       false) := by
  unfold stmtQuery
  rw [h]
  simp

/-- C4 witness: a concrete rejected second query. -/
theorem query_rejects_open_rows_witness :
    stmtQuery stmtWithRows [DVal.intV 5] =
      (stmtWithRows,
       some (GoErr.plain "previously returned Rows still not closed"),
       false) :=
  query_rejects_open_rows stmtWithRows [DVal.intV 5] rfl

/-- Statements issued by the deferred cleanup block on a body error, as
a function of the decremented depth `d = (n + 255) % 256` and the
error's dynamic type: a full ROLLBACK when `d = 0` or the error is a
`*ConnError`; otherwise ROLLBACK TO SAVEPOINT d, followed by RELEASE d
only when the former succeeded. -/
theorem txCleanup_err_trace (E : Engine) (u : Conn) (e' : GoErr) :
    ((u.nTransaction + 255) % 256 = 0 ∨ e'.isPtrConnError = true →
      (txCleanup E u (some e')).trace = u.trace ++ [execEv "ROLLBACK"]) ∧
    ((u.nTransaction + 255) % 256 ≠ 0 → e'.isPtrConnError = false →
      (E.execRes u.trace (rollbackToSql ((u.nTransaction + 255) % 256)) = none →
        (txCleanup E u (some e')).trace =
          u.trace ++ [execEv (rollbackToSql ((u.nTransaction + 255) % 256)),
                      execEv (releaseSql ((u.nTransaction + 255) % 256))]) ∧
      (∀ em, E.execRes u.trace (rollbackToSql ((u.nTransaction + 255) % 256)) =
          some em →
        (txCleanup E u (some e')).trace =
          u.trace ++ [execEv (rollbackToSql ((u.nTransaction + 255) % 256))])) := by
  constructor
  · intro h
    unfold txCleanup
    dsimp only
    rw [if_pos h]
    rfl
  · intro hne hptr
    have hcond : ¬ ((u.nTransaction + 255) % 256 = 0 ∨ e'.isPtrConnError = true) := by
      simp [hne, hptr]
    constructor
    · intro hok
      have hrr : (Conn.RollbackSavepoint E
          { u with nTransaction := (u.nTransaction + 255) % 256 }
          (toString ((u.nTransaction + 255) % 256))).2 = none := by
        simpa [Conn.RollbackSavepoint, Conn.FastExec, rollbackToSql] using hok
      unfold txCleanup
      dsimp only
      rw [if_neg hcond]
      simp only [hrr]
      simp [Conn.ReleaseSavepoint, Conn.RollbackSavepoint, Conn.FastExec,
        execEv, rollbackToSql, releaseSql]
    · intro em hem
      obtain ⟨cd, ms⟩ := em
      have hem' : E.execRes u.trace ("ROLLBACK TO SAVEPOINT " ++
          mprintfQ (toString ((u.nTransaction + 255) % 256))) = some (cd, ms) := hem
      have hrr : (Conn.RollbackSavepoint E
          { u with nTransaction := (u.nTransaction + 255) % 256 }
          (toString ((u.nTransaction + 255) % 256))).2 =
          some (GoErr.connErrVal cd ms) := by
        simp [Conn.RollbackSavepoint, Conn.FastExec, hem']
      unfold txCleanup
      dsimp only
      rw [if_neg hcond]
      simp only [hrr]
      simp [Conn.RollbackSavepoint, Conn.FastExec, execEv, rollbackToSql]

/-- C5 counterexample: a body failing with the value-typed `ConnError`
that this package's own failing operations produce, inside a nested
transaction (pre-call depth 1), does not trigger a full ROLLBACK: the
cleanup takes the savepoint path (`err.(*ConnError)` matches only the
pointer type), so no `ROLLBACK` statement appears in the trace even
though the body error is a connection error. -/
theorem transaction_connError_no_full_rollback :
    Conn.Transaction okEngine 0 cexBody connDepth1 =
      some ({ connDepth1 with
                trace := [execEv (savepointSql 1), execEv (rollbackToSql 1),
                          execEv (releaseSql 1)] }, some cexErr) ∧
    execEv "ROLLBACK" ∉
      [execEv (savepointSql 1), execEv (rollbackToSql 1), execEv (releaseSql 1)] := by
  refine ⟨by decide, by decide⟩

/-- C5 (amended): in `Conn.Transaction`'s deferred cleanup with a failing
body, the depth counter having been decremented back to the pre-call
value `d ≥ 1`: a full ROLLBACK is issued exactly when the error's dynamic
type is `*ConnError` (value-typed `ConnError`, the type the package's own
operations return, takes the savepoint path) or the depth has returned
to 0; otherwise ROLLBACK TO SAVEPOINT d is issued and, only when it
succeeded, RELEASE d, their failures being logged but not propagated —
the call still returns the body's error and the restored counter. -/
theorem transaction_savepoint_cleanup (E : Engine) (t : Nat)
    (f : Conn → Conn × Option GoErr) (c : Conn) (e : GoErr)
    (h1 : 1 ≤ c.nTransaction) (hn : c.nTransaction < 256)
    (hsv : E.execRes c.trace (savepointSql c.nTransaction) = none)
    (hferr : ∀ u, (f u).2 = some e)
    (hfn : ∀ u, (f u).1.nTransaction = u.nTransaction) :
    ∃ c2, f (savepointEntered c) = (c2, some e) ∧
      Conn.Transaction E t f c = some (txCleanup E c2 (some e), some e) ∧
      (txCleanup E c2 (some e)).nTransaction = c.nTransaction ∧
      (∀ (u : Conn) (e' : GoErr),
        ((u.nTransaction + 255) % 256 = 0 ∨ e'.isPtrConnError = true →
          (txCleanup E u (some e')).trace = u.trace ++ [execEv "ROLLBACK"]) ∧
        ((u.nTransaction + 255) % 256 ≠ 0 → e'.isPtrConnError = false →
          (E.execRes u.trace (rollbackToSql ((u.nTransaction + 255) % 256)) = none →
            (txCleanup E u (some e')).trace =
              u.trace ++ [execEv (rollbackToSql ((u.nTransaction + 255) % 256)),
                          execEv (releaseSql ((u.nTransaction + 255) % 256))]) ∧
          (∀ em, E.execRes u.trace (rollbackToSql ((u.nTransaction + 255) % 256)) =
              some em →
            (txCleanup E u (some e')).trace =
              u.trace ++ [execEv (rollbackToSql ((u.nTransaction + 255) % 256))]))) := by
  have hns : ¬ c.nTransaction = 0 := by omega
  have hsv' : E.execRes c.trace
      ("SAVEPOINT " ++ mprintfQ (toString c.nTransaction)) = none := hsv
  have hstep : Conn.Savepoint E c (toString c.nTransaction) =
      ({ c with trace := c.trace ++ [execEv (savepointSql c.nTransaction)] }, none) := by
    simp [Conn.Savepoint, Conn.FastExec, savepointSql, execEv, hsv']
  obtain ⟨c2, hc2⟩ : ∃ c2, f (savepointEntered c) = (c2, some e) := by
    refine ⟨(f (savepointEntered c)).1, ?_⟩
    rw [← hferr (savepointEntered c)]
  have hc2n : c2.nTransaction = (c.nTransaction + 1) % 256 := by
    have h := hfn (savepointEntered c)
    rw [hc2] at h
    exact h
  refine ⟨c2, hc2, ?_, ?_, fun u e' => txCleanup_err_trace E u e'⟩
  · unfold Conn.Transaction
    rw [if_neg hns, hstep]
    dsimp only
    have hc2' : f
        { dbOpen := c.dbOpen
          nTransaction := (c.nTransaction + 1) % 256
          cache := c.cache
          progress := c.progress
          trace := c.trace ++ [execEv (savepointSql c.nTransaction)] } =
        (c2, some e) := hc2
    rw [hc2']
  · rw [txCleanup_nTransaction, hc2n]
    omega

/-- C5 witness: a pointer-typed `*ConnError` from the body does force the
full ROLLBACK path on a concrete nested run. -/
theorem transaction_savepoint_cleanup_witness :
    ∃ c2, ptrErrBody (savepointEntered connDepth1) =
          (c2, some (GoErr.connErrPtr 10 "disk I/O error")) ∧
      Conn.Transaction okEngine 0 ptrErrBody connDepth1 =
        some (txCleanup okEngine c2 (some (GoErr.connErrPtr 10 "disk I/O error")),
              some (GoErr.connErrPtr 10 "disk I/O error")) ∧
      (txCleanup okEngine c2
        (some (GoErr.connErrPtr 10 "disk I/O error"))).nTransaction =
          connDepth1.nTransaction ∧
      (∀ (u : Conn) (e' : GoErr),
        ((u.nTransaction + 255) % 256 = 0 ∨ e'.isPtrConnError = true →
          (txCleanup okEngine u (some e')).trace = u.trace ++ [execEv "ROLLBACK"]) ∧
        ((u.nTransaction + 255) % 256 ≠ 0 → e'.isPtrConnError = false →
          (okEngine.execRes u.trace
              (rollbackToSql ((u.nTransaction + 255) % 256)) = none →
            (txCleanup okEngine u (some e')).trace =
              u.trace ++ [execEv (rollbackToSql ((u.nTransaction + 255) % 256)),
                          execEv (releaseSql ((u.nTransaction + 255) % 256))]) ∧
          (∀ em, okEngine.execRes u.trace
              (rollbackToSql ((u.nTransaction + 255) % 256)) = some em →
            (txCleanup okEngine u (some e')).trace =
              u.trace ++ [execEv (rollbackToSql ((u.nTransaction + 255) % 256))]))) :=
  transaction_savepoint_cleanup okEngine 0 ptrErrBody connDepth1
    (GoErr.connErrPtr 10 "disk I/O error") (by decide) (by decide)
    rfl (fun _ => rfl) (fun _ => rfl)

/-- C6: for `stmt.ExecContext` and for `rowsImpl.Next` with a non-nil
context, the progress hook installed around the statement step is
uninstalled on every exit path — bind error, step error, cancellation
(an abort surfaces as a step error) and normal return — so the
connection's hook registration after the call equals its pre-call empty
state and cannot leak into later calls. -/
theorem progress_hook_uninstalled (E : Engine) (c : Conn) (st : StmtSt)
    (args : List NamedArg) (pidx : String → Option Nat) (ctx : Payload)
    (stepRes : Option GoErr) (p : Payload) (nextOk : Bool)
    (nextErr : Option GoErr) (h : c.progress = none) :
    (stmtExecContext E c st args pidx ctx stepRes).1.progress = c.progress ∧
    (rowsNext c (some p) nextOk nextErr).1.progress = c.progress := by
  constructor
  · unfold stmtExecContext
    rcases hbv : bindNamedValue st args pidx with ⟨st1, be⟩
    dsimp only
    cases be with
    | some e => rfl
    | none =>
      cases stepRes with
      | some e => exact h.symm
      | none => exact h.symm
  · unfold rowsNext
    dsimp only
    cases nextErr with
    | some e => exact h.symm
    | none => cases nextOk <;> exact h.symm

/-- C6 witness: a concrete exec-with-context and row step leave no hook
installed. -/
theorem progress_hook_uninstalled_witness :
    (stmtExecContext okEngine conn0 stmt0 [] (fun _ => none)
        (Payload.ctx false) none).1.progress = conn0.progress ∧
    (rowsNext conn0 (some (Payload.ctx false)) true none).1.progress =
      conn0.progress :=
  progress_hook_uninstalled okEngine conn0 stmt0 [] (fun _ => none)
    (Payload.ctx false) none (Payload.ctx false) true none rfl

/-- A `closeFinish` that reports no error has cleared the handle. -/
theorem closeFinish_none (c : Conn) (rv : Int) (msg : String) (c1 : Conn)
    (h : closeFinish c rv msg = (c1, none)) : c1.dbOpen = false := by
  unfold closeFinish at h
  split at h
  · simp at h
  · injection h with h1 h2
    rw [← h1]

/-- A successful `Conn.Close` always leaves the native handle cleared. -/
theorem close_success_clears (E : Engine) (c c1 : Conn)
    (h : Conn.Close E c = (c1, none)) : c1.dbOpen = false := by
  unfold Conn.Close at h
  split at h
  · rename_i hc
    injection h with h1 h2
    rw [← h1]
    exact hc
  · dsimp only at h
    split at h
    · exact closeFinish_none _ _ _ _ h
    · exact closeFinish_none _ _ _ _ h

/-- C7: once a first `Conn.Close` has succeeded, the handle reference is
cleared: `IsClosed` reports true, a second `Close` returns nil with the
state (hence the trace of native calls — no cache flush, no native
close) unchanged, and every driver-adapter operation — Ping, Exec,
Prepare, QueryContext, ExecContext, Begin, BeginTx — short-circuits with
`driver.ErrBadConn` leaving the connection untouched. -/
theorem close_idempotent_ops_fail_fast (E : Engine) (c c1 : Conn)
    (h : Conn.Close E c = (c1, none)) :
    Conn.Close E c1 = (c1, none) ∧
    c1.IsClosed = true ∧
    dPing E c1 = (c1, some GoErr.badConn) ∧
    (∀ q args, dExec E c1 q args = (c1, some GoErr.badConn, none)) ∧
    (∀ q, dPrepare E c1 q = (c1, some GoErr.badConn, none)) ∧
    (∀ q args pidx, dQueryContext E c1 q args pidx =
      (c1, some GoErr.badConn, false)) ∧
    (∀ q args pidx ctx sr, dExecContext E c1 q args pidx ctx sr =
      (c1, some GoErr.badConn, none)) ∧
    dBegin E c1 = (c1, some GoErr.badConn) ∧
    (∀ lvl ro, dBeginTx E c1 lvl ro = (c1, some GoErr.badConn)) := by
  have hdb : c1.dbOpen = false := close_success_clears E c c1 h
  have hcl : c1.IsClosed = true := by simp [Conn.IsClosed, hdb]
  refine ⟨?_, hcl, ?_, ?_, ?_, ?_, ?_, ?_, ?_⟩
  · unfold Conn.Close
    rw [if_pos hdb]
  · simp [dPing, hcl]
  · intro q args
    simp [dExec, hcl]
  · intro q
    simp [dPrepare, hcl]
  · intro q args pidx
    simp [dQueryContext, hcl]
  · intro q args pidx ctx sr
    simp [dExecContext, hcl]
  · simp [dBegin, hcl]
  · intro lvl ro
    simp [dBeginTx, hcl]

/-- C7 witness: a concrete close, second close and fast-failing ping. -/
theorem close_idempotent_ops_fail_fast_witness :
    Conn.Close okEngine closedConn = (closedConn, none) ∧
    closedConn.IsClosed = true ∧
    dPing okEngine closedConn = (closedConn, some GoErr.badConn) :=
  ⟨(close_idempotent_ops_fail_fast okEngine conn0 closedConn (by decide)).1,
   (close_idempotent_ops_fail_fast okEngine conn0 closedConn (by decide)).2.1,
   (close_idempotent_ops_fail_fast okEngine conn0 closedConn (by decide)).2.2.1⟩

/-- C8: the installed progress callback requests an abort exactly when
its payload is a context whose Done channel is closed at the moment the
engine polls it — the decision is a function of the Done state at poll
time only, so a cancellation requested between polls is not observed
until the next poll, and a non-context or non-cancelled payload never
aborts. -/
theorem progressHandler_abort_iff (p : Payload) :
    progressHandler p = true ↔ p = Payload.ctx true := by
  cases p with
  | ctx done => cases done <;> simp [progressHandler]
  | nonCtx => simp [progressHandler]

/-- C9: `Conn.BeginTransaction` issues exactly BEGIN for Deferred (0),
BEGIN IMMEDIATE for Immediate (1) and BEGIN EXCLUSIVE for Exclusive (2),
never panicking on these, and panics (modelled as `none`) for every
other transaction-type value instead of returning a recoverable
error. -/
theorem beginTransaction_statements (E : Engine) (c : Conn) (t : Nat) :
    (t = 0 → ∃ e, Conn.BeginTransaction E c t =
      some ({ c with trace := c.trace ++ [execEv "BEGIN"] }, e)) ∧
    (t = 1 → ∃ e, Conn.BeginTransaction E c t =
      some ({ c with trace := c.trace ++ [execEv "BEGIN IMMEDIATE"] }, e)) ∧
    (t = 2 → ∃ e, Conn.BeginTransaction E c t =
      some ({ c with trace := c.trace ++ [execEv "BEGIN EXCLUSIVE"] }, e)) ∧
    (3 ≤ t → Conn.BeginTransaction E c t = none) := by
  refine ⟨?_, ?_, ?_, ?_⟩
  · rintro rfl
    exact ⟨_, rfl⟩
  · rintro rfl
    exact ⟨_, rfl⟩
  · rintro rfl
    exact ⟨_, rfl⟩
  · intro h3
    have h0 : t ≠ 0 := by omega
    have h1 : t ≠ 1 := by omega
    have h2 : t ≠ 2 := by omega
    simp [Conn.BeginTransaction, h0, h1, h2]

/-- C9 witness: the Deferred case on a concrete connection. -/
theorem beginTransaction_statements_witness :
    ∃ e, Conn.BeginTransaction okEngine conn0 0 =
      some ({ conn0 with trace := conn0.trace ++ [execEv "BEGIN"] }, e) :=
  (beginTransaction_statements okEngine conn0 0).1 rfl

/-- C10: `Conn.Insert` returns rowid -1 with a nil error when the DML
succeeded but changed zero rows, without consulting LastInsertRowid; any
error from the underlying exec is returned with rowid -1, also without
consulting it; LastInsertRowid is read only for a nonzero change
count. -/
theorem insert_rowid_flow (changes : Int) (dmlErr : Option GoErr)
    (lastRowid : Int) :
    (∀ e, dmlErr = some e →
      Conn.Insert changes dmlErr lastRowid = (-1, some e, false)) ∧
    (dmlErr = none → changes = 0 →
      Conn.Insert changes dmlErr lastRowid = (-1, none, false)) ∧
    (dmlErr = none → changes ≠ 0 →
      Conn.Insert changes dmlErr lastRowid = (lastRowid, none, true)) := by
  refine ⟨?_, ?_, ?_⟩
  · rintro e rfl
    rfl
  · rintro rfl hz
    simp [Conn.Insert, hz]
  · rintro rfl hz
    simp [Conn.Insert, hz]

/-- C10 witness: a successful DML with zero changes yields rowid -1 and
no error. -/
theorem insert_rowid_flow_witness :
    Conn.Insert 0 none 42 = (-1, none, false) :=
  (insert_rowid_flow 0 none 42).2.1 rfl rfl

end GoSqlite
